import Mathlib

/-!
Shallow embedding of the authentication and credential-lifecycle module of the
CRM backend (src/routers/auth.py, src/routers/users.py, src/utils/auth_utils.py,
src/utils/jwt_utils.py, src/dependencies.py).

Modelling conventions:

* Cryptographic primitives are modelled symbolically (ideal, collision-free):
  an input fed to bcrypt is either a raw string passed through unchanged or the
  SHA-256 hex digest of a string, kept apart by constructor; a bcrypt hash is a
  wrapper around the exact input that was hashed (the salt is abstracted away,
  since checkpw recovers the salt from the stored hash and compares digests, so
  with an ideal primitive verification succeeds exactly when the inputs agree).
* Time is a natural number of minutes; NOW() is an explicit parameter.
  One hour = 60, one day = 1440, one year = 525600.
* The database is an explicit record of row lists; ids are naturals drawn from
  a counter.  Each endpoint is a pure function from the database (plus request
  body, acting principal and clock) to a result and the successor database.
  A rollback of a transaction is modelled by returning the entry database.
* Fallible steps that the Python code wraps in try/except (the three INSERTs of
  signup, the SMTP send of forgot-password) are modelled by explicit failure
  flags passed as arguments.
* Columns that no modelled code path reads or that hold free-form data
  (timestamps are kept as Nat, nullable text as Option String) are carried
  along faithfully where the handlers touch them.
-/

namespace CRM

/-- Symbolic model of the strings fed to the bcrypt primitive: either a raw
string handed over unchanged, or the SHA-256 hex digest of a password
(hashlib.sha256(password.encode()).hexdigest() in utils/auth_utils.py).
The two constructors are disjoint and sha256 is injective: this is the ideal
(collision-free) model of the digest. -/
inductive PwInput where
  | raw : String → PwInput
  | sha256 : String → PwInput
deriving DecidableEq, Repr

/-- utils/auth_utils.py get_password_hash_input: the empty password is returned
as the empty (raw) string, every other password is replaced by its SHA-256 hex
digest before it reaches bcrypt. -/
def get_password_hash_input (password : String) : PwInput :=
  if password = "" then PwInput.raw "" else PwInput.sha256 password

/-- Symbolic bcrypt hash: records exactly the input that was hashed (salt
abstracted, see the header comment). -/
structure BcryptHash where
  input : PwInput
deriving DecidableEq, Repr

/-- bcrypt.hashpw (and equivalently passlib CryptContext.hash with the bcrypt
scheme, as pwd_ctx.hash in the routers). -/
def pwd_ctx_hash (i : PwInput) : BcryptHash := ⟨i⟩

/-- bcrypt.checkpw / passlib CryptContext.verify: with an ideal primitive,
verification succeeds exactly when the candidate input equals the hashed
input. -/
def pwd_ctx_verify (i : PwInput) (h : BcryptHash) : Bool := decide (i = h.input)

/-- utils/auth_utils.py hash_password: normalize then bcrypt-hash. -/
def hash_password (password : String) : BcryptHash :=
  pwd_ctx_hash (get_password_hash_input password)

/-- utils/auth_utils.py verify_password: normalize the candidate then run the
bcrypt check against the stored hash. -/
def verify_password (plain_password : String) (hashed_password : BcryptHash) : Bool :=
  pwd_ctx_verify (get_password_hash_input plain_password) hashed_password

/-! Token service (utils/jwt_utils.py), modelled symbolically: a token is the
signed payload together with the signing key; verification checks the key and
the expiry. -/

/-- Default of the JWT_SECRET environment variable in utils/jwt_utils.py. -/
def SECRET_KEY : String := "change_me_in_production"

/-- Default token validity, in minutes. -/
def ACCESS_TOKEN_EXPIRE_MINUTES : Nat := 1440

/-- Claim set passed by the callers of create_access_token. -/
structure TokenData where
  sub : Nat
  tenant_id : Nat
  email : String
  role : String
deriving DecidableEq, Repr

/-- Encoded payload: the claim set plus the exp field added at issuance. -/
structure TokenPayload where
  sub : Nat
  tenant_id : Nat
  email : String
  role : String
  exp : Nat
deriving DecidableEq, Repr

/-- Symbolic signed token: payload plus signing key. -/
structure JwtToken where
  payload : TokenPayload
  key : String
deriving DecidableEq, Repr

/-- Failure kinds of jose.jwt.decode. -/
inductive JwtError where
  | badSignature
  | expired
deriving DecidableEq, Repr

/-- utils/jwt_utils.py create_access_token: copy the claims, add exp = now +
(expires_delta or the 1440-minute default), sign with the process secret. -/
def create_access_token (data : TokenData) (expires_delta : Option Nat) (now : Nat) :
    JwtToken :=
  let expire := now + (match expires_delta with
    | some d => d
    | none => ACCESS_TOKEN_EXPIRE_MINUTES)
  ⟨⟨data.sub, data.tenant_id, data.email, data.role, expire⟩, SECRET_KEY⟩

/-- utils/jwt_utils.py verify_access_token: decode checks the signature and the
expiry and returns the payload; it raises JWTError otherwise. -/
def verify_access_token (token : JwtToken) (now : Nat) : Except JwtError TokenPayload :=
  if token.key ≠ SECRET_KEY then Except.error JwtError.badSignature
  else if token.payload.exp ≤ now then Except.error JwtError.expired
  else Except.ok token.payload

/-! Data model: rows as returned by the SELECT/RETURNING column lists used in
the handlers. -/

/-- users table row (column order of the SELECT in login: id, tenant_id, name,
email, password_hash, role, status, avatar_url, created_at, updated_at), plus
the must_reset_password column read by the reset flows. -/
structure UserRow where
  id : Nat
  tenant_id : Nat
  name : String
  email : String
  password_hash : BcryptHash
  role : String
  status : String
  avatar_url : Option String
  created_at : Nat
  updated_at : Nat
  must_reset_password : Bool
deriving DecidableEq, Repr

/-- tenants table row (id, name, domain, plan, status, logo_url, primary_color,
dark_mode, created_at, updated_at). -/
structure TenantRow where
  id : Nat
  name : String
  domain : Option String
  plan : String
  status : String
  logo_url : Option String
  primary_color : Option String
  dark_mode : Bool
  created_at : Nat
  updated_at : Nat
deriving DecidableEq, Repr

/-- subscriptions table row (tenant_id, plan, status, max_users, expiry_date). -/
structure SubscriptionRow where
  tenant_id : Nat
  plan : String
  status : String
  max_users : Nat
  expiry_date : Nat
deriving DecidableEq, Repr

/-- password_reset_tokens table row (user_id, token, expires_at). -/
structure PasswordResetTokenRow where
  user_id : Nat
  token : String
  expires_at : Nat
deriving DecidableEq, Repr

/-- The relational store reached through db.get_conn, restricted to the tables
the auth module touches.  next_id feeds the id columns of new rows. -/
structure DB where
  next_id : Nat
  tenants : List TenantRow
  users : List UserRow
  subscriptions : List SubscriptionRow
  password_reset_tokens : List PasswordResetTokenRow
deriving DecidableEq, Repr

/-- HTTPException as raised by the handlers: status code plus detail. -/
structure HTTPException where
  status_code : Nat
  detail : String
deriving DecidableEq, Repr

/-- Response shape of _row_to_user in routers/auth.py (createdAt/updatedAt kept
as Nat). -/
structure UserOut where
  id : Nat
  tenantId : Nat
  name : String
  email : String
  role : String
  status : String
  avatarUrl : String
  createdAt : Nat
  updatedAt : Nat
deriving DecidableEq, Repr

/-- routers/auth.py _row_to_user. -/
def row_to_user (row : UserRow) : UserOut :=
  ⟨row.id, row.tenant_id, row.name, row.email, row.role, row.status,
    row.avatar_url.getD "", row.created_at, row.updated_at⟩

/-- Response shape of _row_to_tenant in routers/auth.py. -/
structure TenantOut where
  id : Nat
  name : String
  domain : String
  plan : String
  status : String
  logoUrl : String
  primaryColor : String
  darkMode : Bool
  createdAt : Nat
  updatedAt : Nat
deriving DecidableEq, Repr

/-- routers/auth.py _row_to_tenant.  Note that the plan and status fields of
the response are the hardcoded literals "enterprise" and "active" (marked
"Hardcoded for simplification" in the source); the row values are ignored. -/
def row_to_tenant (row : TenantRow) : TenantOut :=
  ⟨row.id, row.name, row.domain.getD "", "enterprise", "active",
    row.logo_url.getD "", row.primary_color.getD "#6366f1", row.dark_mode,
    row.created_at, row.updated_at⟩

/-- SELECT ... FROM users WHERE email = %s (first matching row). -/
def find_user_by_email (db : DB) (email : String) : Option UserRow :=
  db.users.find? (fun u => u.email == email)

/-- SELECT ... FROM users WHERE id = %s (first matching row). -/
def find_user_by_id (db : DB) (uid : Nat) : Option UserRow :=
  db.users.find? (fun u => u.id == uid)

/-- The acting principal returned by dependencies.get_current_user:
{id, tenant_id, email, role} of the live user row. -/
structure Principal where
  id : Nat
  tenant_id : Nat
  email : String
  role : String
deriving DecidableEq, Repr

/-! Login endpoint. -/

/-- Request body of POST /auth/login. -/
structure LoginBody where
  email : String
  password : String
deriving DecidableEq, Repr

/-- Response of POST /auth/login; the tenant member is none when the tenant row
is absent (the handler then returns an empty dict). -/
structure LoginResponse where
  user : UserOut
  tenant : Option TenantOut
  accessToken : JwtToken
deriving DecidableEq, Repr

/-- routers/auth.py login: look the user up by email, normalize the candidate
password, fail with 401 "Invalid email or password" when the row is absent or
verification fails, otherwise issue a token and fetch the tenant row. -/
def login (db : DB) (body : LoginBody) (now : Nat) :
    Except HTTPException LoginResponse :=
  let row := find_user_by_email db body.email
  let pw_input := get_password_hash_input body.password
  match row with
  | none => Except.error ⟨401, "Invalid email or password"⟩
  | some r =>
      if pwd_ctx_verify pw_input r.password_hash = false then
        Except.error ⟨401, "Invalid email or password"⟩
      else
        let user := row_to_user r
        let token := create_access_token ⟨user.id, user.tenantId, user.email, user.role⟩ none now
        let t_row := db.tenants.find? (fun t => t.id == user.tenantId)
        Except.ok ⟨user, t_row.map row_to_tenant, token⟩

/-! Signup endpoint. -/

/-- Request body of POST /auth/signup (plan defaults to "basic" in the pydantic
model; here it is always explicit). -/
structure SignUpBody where
  fullName : String
  email : String
  password : String
  company : String
  plan : String
deriving DecidableEq, Repr

/-- The plan_limits dict in signup: {"basic": 5, "pro": 25, "enterprise": 999},
looked up with default 5. -/
def plan_limits (plan : String) : Nat :=
  if plan == "basic" then 5
  else if plan == "pro" then 25
  else if plan == "enterprise" then 999
  else 5

/-- Failure injection for the three INSERT statements inside the signup
transaction: a true flag means that statement raises. -/
structure FailSpec where
  tenant_insert : Bool
  user_insert : Bool
  subscription_insert : Bool
deriving DecidableEq, Repr

/-- Response of POST /auth/signup together with the HTTP status of the route
decorator (status.HTTP_201_CREATED). -/
structure SignupResponse where
  status_code : Nat
  user : UserOut
  tenant : TenantOut
  accessToken : JwtToken
deriving DecidableEq, Repr

/-- routers/auth.py signup: email-uniqueness check, then a single transaction
inserting the tenant, the ADMIN user (password normalized through
get_password_hash_input before pwd_ctx.hash) and the subscription; any raising
statement triggers conn.rollback() (the entry database is returned unchanged)
and HTTPException(500, "Failed to create account").  On commit a token is
issued as in login.  The must_reset_password column is not in the INSERT list
and takes the schema default false. -/
def signup (db : DB) (body : SignUpBody) (fail : FailSpec) (now : Nat) :
    Except HTTPException SignupResponse × DB :=
  match find_user_by_email db body.email with
  | some _ => (Except.error ⟨400, "User with this email already exists"⟩, db)
  | none =>
    if fail.tenant_insert then (Except.error ⟨500, "Failed to create account"⟩, db)
    else
      let domain := (body.company.toLower.replace " " "-") ++ ".crm.io"
      let tenant_id := db.next_id
      let t_row : TenantRow :=
        ⟨tenant_id, body.company, some domain, body.plan, "active", none, none, false, now, now⟩
      if fail.user_insert then (Except.error ⟨500, "Failed to create account"⟩, db)
      else
        let pw_input := get_password_hash_input body.password
        let pw_hash := pwd_ctx_hash pw_input
        let u_row : UserRow :=
          ⟨db.next_id + 1, tenant_id, body.fullName, body.email, pw_hash,
            "ADMIN", "active", none, now, now, false⟩
        if fail.subscription_insert then (Except.error ⟨500, "Failed to create account"⟩, db)
        else
          let max_users := plan_limits body.plan
          let s_row : SubscriptionRow := ⟨tenant_id, body.plan, "active", max_users, now + 525600⟩
          let db2 : DB :=
            ⟨db.next_id + 2, db.tenants ++ [t_row], db.users ++ [u_row],
              db.subscriptions ++ [s_row], db.password_reset_tokens⟩
          let user := row_to_user u_row
          let tenant := row_to_tenant t_row
          let token := create_access_token ⟨user.id, user.tenantId, user.email, user.role⟩ none now
          (Except.ok ⟨201, user, tenant, token⟩, db2)

/-! Forgot-password endpoint. -/

/-- Request body of POST /auth/forgot-password. -/
structure ForgotPasswordBody where
  email : String
deriving DecidableEq, Repr

/-- routers/auth.py forgot_password: status 204 always (route decorator).  If
no user carries the email, return silently; otherwise insert a reset-token row
expiring one hour from now, then attempt the SMTP send inside try/except —
a raised send (smtp_fails = true) is only printed and does not alter the
response or the stored token.  The opaque token string
(secrets.token_urlsafe(48)) is an explicit argument. -/
def forgot_password (db : DB) (body : ForgotPasswordBody) (token : String)
    (now : Nat) (smtp_fails : Bool) : Nat × DB :=
  match find_user_by_email db body.email with
  | none => (204, db)
  | some u =>
    let row : PasswordResetTokenRow := ⟨u.id, token, now + 60⟩
    let db2 : DB := { db with password_reset_tokens := db.password_reset_tokens ++ [row] }
    match smtp_fails with
    | true => (204, db2)
    | false => (204, db2)

/-! Reset-password and admin-reset-password endpoints. -/

/-- Request body of POST /auth/reset-password. -/
structure ResetPasswordBody where
  userId : Nat
  currentPassword : String
  newPassword : String
deriving DecidableEq, Repr

/-- Request body of POST /auth/admin-reset-password. -/
structure AdminResetBody where
  userId : Nat
  newPassword : String
deriving DecidableEq, Repr

/-- UPDATE users SET password_hash = %s, must_reset_password = %s,
updated_at = NOW() WHERE id = %s. -/
def set_user_password (users : List UserRow) (uid : Nat) (hsh : BcryptHash)
    (must_reset : Bool) (now : Nat) : List UserRow :=
  users.map (fun u =>
    if u.id == uid then
      { u with password_hash := hsh, must_reset_password := must_reset, updated_at := now }
    else u)

/-- routers/auth.py reset_password: fetch password_hash and
must_reset_password of the addressed user (404 when absent).  When the
must-reset flag is clear, a missing or non-verifying currentPassword (verified
through get_password_hash_input) raises 400 "Current password is incorrect";
when the flag is set the check is skipped.  The stored new hash is
pwd_ctx.hash(body.newPassword) on the RAW new password — the source does not
normalize it — must_reset_password is cleared, and the updated row is
returned.  The authenticated current_user is not consulted. -/
def reset_password (db : DB) (body : ResetPasswordBody) (current_user : Principal)
    (now : Nat) : Except HTTPException UserOut × DB :=
  match find_user_by_id db body.userId with
  | none => (Except.error ⟨404, "User not found"⟩, db)
  | some u =>
    if u.must_reset_password = false ∧
        (body.currentPassword = "" ∨
          pwd_ctx_verify (get_password_hash_input body.currentPassword) u.password_hash = false) then
      (Except.error ⟨400, "Current password is incorrect"⟩, db)
    else
      let new_hash := pwd_ctx_hash (PwInput.raw body.newPassword)
      let u2 := { u with password_hash := new_hash, must_reset_password := false, updated_at := now }
      (Except.ok (row_to_user u2),
        { db with users := set_user_password db.users body.userId new_hash false now })

/-- routers/auth.py admin_reset_password: 403 "Admin role required" unless the
acting principal has role ADMIN; otherwise hash the RAW new password (again
without normalization), update the addressed row forcing
must_reset_password = true, and 404 when no row matched.  No tenant comparison
occurs anywhere in the handler. -/
def admin_reset_password (db : DB) (body : AdminResetBody) (current_user : Principal)
    (now : Nat) : Except HTTPException UserOut × DB :=
  if current_user.role ≠ "ADMIN" then (Except.error ⟨403, "Admin role required"⟩, db)
  else
    let new_hash := pwd_ctx_hash (PwInput.raw body.newPassword)
    match find_user_by_id db body.userId with
    | none => (Except.error ⟨404, "User not found"⟩, db)
    | some u =>
      let u2 := { u with password_hash := new_hash, must_reset_password := true, updated_at := now }
      (Except.ok (row_to_user u2),
        { db with users := set_user_password db.users body.userId new_hash true now })

/-- routers/users.py admin_reset_password (POST /users/:id/reset-password):
same logic as the auth-router variant — ADMIN gate, bcrypt hash of the raw new
password, must_reset_password forced true, 404 when no row matched, and no
tenant-scoping check. -/
def users_admin_reset_password (db : DB) (user_id : Nat) (newPassword : String)
    (current_user : Principal) (now : Nat) : Except HTTPException UserOut × DB :=
  if current_user.role ≠ "ADMIN" then (Except.error ⟨403, "Admin role required"⟩, db)
  else
    let pw_hash := pwd_ctx_hash (PwInput.raw newPassword)
    match find_user_by_id db user_id with
    | none => (Except.error ⟨404, "User not found"⟩, db)
    | some u =>
      let u2 := { u with password_hash := pw_hash, must_reset_password := true, updated_at := now }
      (Except.ok (row_to_user u2),
        { db with users := set_user_password db.users user_id pw_hash true now })

/-- routers/users.py change_password (POST /users/:id/change-password): always
requires currentPassword, verified after a 72-byte truncation (modelled as the
raw string, with no SHA-256 normalization), and stores
pwd_ctx.hash(body.newPassword) on the raw new password, clearing
must_reset_password. -/
def change_password (db : DB) (user_id : Nat) (currentPassword newPassword : String)
    (current_user : Principal) (now : Nat) : Except HTTPException UserOut × DB :=
  match find_user_by_id db user_id with
  | none => (Except.error ⟨404, "User not found"⟩, db)
  | some u =>
    if pwd_ctx_verify (PwInput.raw currentPassword) u.password_hash = false then
      (Except.error ⟨400, "Current password is incorrect"⟩, db)
    else
      let pw_hash := pwd_ctx_hash (PwInput.raw newPassword)
      let u2 := { u with password_hash := pw_hash, must_reset_password := false, updated_at := now }
      (Except.ok (row_to_user u2),
        { db with users := set_user_password db.users user_id pw_hash false now })

/-! Sample data for concrete witnesses and counterexamples. -/

/-- Sample user for concrete witnesses: password "right" set through the
normalizing hash of signup, must-reset flag clear. -/
def sample_user : UserRow :=
  ⟨1, 1, "Alice", "a@x.com", hash_password "right", "ADMIN", "active", none, 0, 0, false⟩

/-- Sample one-user database. -/
def sample_db : DB := ⟨2, [], [sample_user], [], []⟩

/-- Sample user in the forced-reset state: an admin set the temporary password
"Temp123!" (stored raw-hashed, as admin_reset_password does) and the
must-reset flag. -/
def temp_user : UserRow :=
  ⟨3, 1, "Carl", "c@x.com", pwd_ctx_hash (PwInput.raw "Temp123!"), "SALES", "active",
    none, 0, 0, true⟩

/-- Sample database holding only the forced-reset user. -/
def temp_db : DB := ⟨4, [], [temp_user], [], []⟩

/-- Sample user whose password is the empty string (signup accepts it and
hashes it to the raw empty input), in tenant 2. -/
def empty_pw_user : UserRow :=
  ⟨5, 2, "Eve", "e@x.com", hash_password "", "SALES", "active", none, 0, 0, false⟩

/-- Sample database holding only the empty-password user of tenant 2. -/
def cross_tenant_db : DB := ⟨6, [], [empty_pw_user], [], []⟩

/-- Sample ADMIN principal of tenant 1. -/
def admin_principal : Principal := ⟨1, 1, "a@x.com", "ADMIN"⟩

/-! Shared helper lemmas. -/

/-- Distinct passwords normalize to distinct bcrypt inputs: the empty password
maps to the raw empty string while nonempty passwords map to their (injective,
symbolically modelled) SHA-256 digests. -/
theorem get_password_hash_input_injective (p q : String) (hpq : p ≠ q) :
    get_password_hash_input p ≠ get_password_hash_input q := by
  unfold get_password_hash_input
  by_cases hp : p = "" <;> by_cases hq : q = "" <;> simp_all

/-- The UPDATE of set_user_password commutes with the point lookup WHERE
id = uid: the found row is the found row of the entry list, updated. -/
theorem find_set_user_password (l : List UserRow) (uid : Nat) (hs : BcryptHash)
    (b : Bool) (now : Nat) :
    (set_user_password l uid hs b now).find? (fun u => u.id == uid) =
      (l.find? (fun u => u.id == uid)).map
        (fun u => { u with password_hash := hs, must_reset_password := b, updated_at := now }) := by
  induction l with
  | nil => rfl
  | cons x xs ih =>
    simp only [set_user_password] at ih ⊢
    simp only [List.map_cons]
    rw [List.find?_cons, List.find?_cons]
    by_cases hx : (x.id == uid) = true
    · simp [hx]
    · rw [if_neg hx]
      have hx2 : (x.id == uid) = false := by simpa using hx
      rw [hx2]
      exact ih

/-- C7: for all plaintext passwords p and p2 with p ≠ p2, verification of p
against the hash of p succeeds and verification of p against the hash of p2
fails, hash_password and verify_password being the Credential Hasher
operations of utils/auth_utils.py. -/
theorem verify_hash_agreement (p p2 : String) (h : p ≠ p2) :
    verify_password p (hash_password p) = true ∧
    verify_password p (hash_password p2) = false := by
  constructor
  · simp [verify_password, hash_password, pwd_ctx_verify, pwd_ctx_hash]
  · simp [verify_password, hash_password, pwd_ctx_verify, pwd_ctx_hash]
    exact get_password_hash_input_injective p p2 h

/-- Witness for C7 at p = "right", p2 = "wrong". -/
theorem verify_hash_agreement_witness :
    verify_password "right" (hash_password "right") = true ∧
    verify_password "right" (hash_password "wrong") = false :=
  verify_hash_agreement "right" "wrong" (by decide)

/-- C8: verifying a token immediately after issuing it succeeds and returns
the input claim set with only the exp field added (sub, tenant_id, email and
role round-trip unchanged). -/
theorem token_roundtrip (data : TokenData) (now : Nat) :
    verify_access_token (create_access_token data none now) now =
      Except.ok ⟨data.sub, data.tenant_id, data.email, data.role,
        now + ACCESS_TOKEN_EXPIRE_MINUTES⟩ := by
  simp [verify_access_token, create_access_token, ACCESS_TOKEN_EXPIRE_MINUTES]

/-- C4: when the email matches no user, or when the bcrypt verification of the
candidate password against the stored hash fails, login returns the one
invalid-credentials error 401 "Invalid email or password" — the response does
not separate the two cases. -/
theorem login_uniform_invalid_credentials (db : DB) (body : LoginBody) (now : Nat)
    (h : find_user_by_email db body.email = none ∨
      ∃ r, find_user_by_email db body.email = some r ∧
        pwd_ctx_verify (get_password_hash_input body.password) r.password_hash = false) :
    login db body now = Except.error ⟨401, "Invalid email or password"⟩ := by
  rcases h with h | ⟨r, hr, hv⟩
  · simp [login, h]
  · simp [login, hr, hv]

/-- Witness for C4: the unknown-email case and the wrong-password case on the
sample database both produce the identical 401 response. -/
theorem login_uniform_invalid_credentials_witness :
    login sample_db ⟨"absent@x.com", "right"⟩ 0 =
      Except.error ⟨401, "Invalid email or password"⟩ ∧
    login sample_db ⟨"a@x.com", "wrong"⟩ 0 =
      Except.error ⟨401, "Invalid email or password"⟩ :=
  ⟨login_uniform_invalid_credentials sample_db ⟨"absent@x.com", "right"⟩ 0
      (Or.inl (by decide)),
    login_uniform_invalid_credentials sample_db ⟨"a@x.com", "wrong"⟩ 0
      (Or.inr ⟨sample_user, by decide, by decide⟩)⟩

/-- C2: when any of the three INSERT statements of the signup transaction
raises (after the email-uniqueness check passed), the handler rolls the
transaction back — the database is returned exactly as it was, with no partial
tenant, user or subscription row — and the error surfaces as the Internal
error 500 "Failed to create account". -/
theorem signup_atomic (db : DB) (body : SignUpBody) (fail : FailSpec) (now : Nat)
    (hnew : find_user_by_email db body.email = none)
    (hfail : fail.tenant_insert = true ∨ fail.user_insert = true ∨
      fail.subscription_insert = true) :
    signup db body fail now = (Except.error ⟨500, "Failed to create account"⟩, db) := by
  obtain ⟨ft, fu, fs⟩ := fail
  cases ft <;> cases fu <;> cases fs <;> simp_all [signup]

/-- Witness for C2: a failure of the user INSERT on an empty database yields
the 500 error and leaves the database untouched. -/
theorem signup_atomic_witness :
    signup ⟨0, [], [], [], []⟩ ⟨"Ann", "ann@x.com", "Secret123!", "Acme", "basic"⟩
        ⟨false, true, false⟩ 0 =
      (Except.error ⟨500, "Failed to create account"⟩, ⟨0, [], [], [], []⟩) :=
  signup_atomic ⟨0, [], [], [], []⟩ ⟨"Ann", "ann@x.com", "Secret123!", "Acme", "basic"⟩
    ⟨false, true, false⟩ 0 (by decide) (Or.inr (Or.inl rfl))

/-- C3 as amended: every successful signup responds with status 201, the
returned user role is ADMIN, and a login with the same email and password
against the resulting database succeeds; the plan of the returned tenant,
however, is always the hardcoded string "enterprise" (the stored tenant row
keeps the requested plan, but the response mapper ignores it). -/
theorem signup_success_spec (db : DB) (body : SignUpBody) (fail : FailSpec) (now : Nat)
    (resp : SignupResponse) (db2 : DB)
    (h : signup db body fail now = (Except.ok resp, db2)) :
    resp.status_code = 201 ∧ resp.user.role = "ADMIN" ∧
    resp.tenant.plan = "enterprise" ∧
    ∃ r, login db2 ⟨body.email, body.password⟩ now = Except.ok r := by
  rcases hfind : find_user_by_email db body.email with _ | u
  · obtain ⟨ft, fu, fs⟩ := fail
    cases ft <;> cases fu <;> cases fs <;> simp [signup, hfind] at h
    obtain ⟨hresp, hdb2⟩ := h
    subst hresp hdb2
    refine ⟨rfl, rfl, rfl, ?_⟩
    have hfind2 : db.users.find? (fun u => u.email == body.email) = none := hfind
    simp [login, find_user_by_email, List.find?_append, hfind2, row_to_user,
      pwd_ctx_verify, pwd_ctx_hash]
  · simp [signup, hfind] at h

/-- Witness for C3 on a concrete signup over the empty database. -/
theorem signup_success_spec_witness :
    ∃ resp db2,
      signup ⟨0, [], [], [], []⟩ ⟨"Ann", "ann@x.com", "Secret123!", "Acme", "basic"⟩
          ⟨false, false, false⟩ 0 = (Except.ok resp, db2) ∧
      resp.status_code = 201 ∧ resp.user.role = "ADMIN" ∧
      resp.tenant.plan = "enterprise" ∧
      ∃ r, login db2 ⟨"ann@x.com", "Secret123!"⟩ 0 = Except.ok r :=
  ⟨_, _, rfl,
    signup_success_spec ⟨0, [], [], [], []⟩ ⟨"Ann", "ann@x.com", "Secret123!", "Acme", "basic"⟩
      ⟨false, false, false⟩ 0 _ _ rfl⟩

/-- Counterexample for C3 as stated: on the concrete signup request with plan
"basic" the signup succeeds but the returned tenant plan is the hardcoded
"enterprise", not the plan of the request body. -/
theorem signup_plan_not_reflected :
    ¬ (∀ resp db2,
        signup ⟨0, [], [], [], []⟩ ⟨"Ann", "ann@x.com", "Secret123!", "Acme", "basic"⟩
            ⟨false, false, false⟩ 0 = (Except.ok resp, db2) →
          resp.tenant.plan = "basic") := by
  intro hcl
  exact absurd (hcl _ _ rfl) (by decide)

/-- C1, evaluated at the failing input: the self-service and admin reset flows
hash the raw new password while login verifies the SHA-256-normalized input,
so passwords set by those flows are not verifiable by login.  Concretely, on
the sample user (password "right" set with normalization): the reset to
"NewPass1!" succeeds, yet the subsequent login with "NewPass1!" fails; a login
after an admin reset to "Temp9!" fails the same way; change_password rejects
the correct current password outright (it verifies the raw string against the
normalized-input hash); by contrast the password set by signup keeps working
(the last conjunct). -/
theorem reset_flows_break_login_verification :
    (reset_password sample_db ⟨1, "right", "NewPass1!"⟩ admin_principal 5).1 =
      Except.ok ⟨1, 1, "Alice", "a@x.com", "ADMIN", "active", "", 0, 5⟩ ∧
    login (reset_password sample_db ⟨1, "right", "NewPass1!"⟩ admin_principal 5).2
        ⟨"a@x.com", "NewPass1!"⟩ 5 =
      Except.error ⟨401, "Invalid email or password"⟩ ∧
    login (admin_reset_password sample_db ⟨1, "Temp9!"⟩ admin_principal 5).2
        ⟨"a@x.com", "Temp9!"⟩ 5 =
      Except.error ⟨401, "Invalid email or password"⟩ ∧
    change_password sample_db 1 "right" "NewPass1!" admin_principal 5 =
      (Except.error ⟨400, "Current password is incorrect"⟩, sample_db) ∧
    ∃ r, login sample_db ⟨"a@x.com", "right"⟩ 5 = Except.ok r :=
  ⟨rfl, rfl, rfl, rfl, ⟨_, rfl⟩⟩

/-- C5: on an existing user, reset_password (a) fails with the 400
"Current password is incorrect" error when the must-reset flag is clear and
currentPassword is missing or does not verify; (b) skips the current-password
check entirely when the flag is set; and (c) on success stores the new hash,
clears must_reset_password and returns the updated principal. -/
theorem reset_password_spec (db : DB) (body : ResetPasswordBody) (cu : Principal)
    (now : Nat) (u : UserRow) (hu : find_user_by_id db body.userId = some u) :
    (u.must_reset_password = false →
      (body.currentPassword = "" ∨
        pwd_ctx_verify (get_password_hash_input body.currentPassword) u.password_hash = false) →
      reset_password db body cu now =
        (Except.error ⟨400, "Current password is incorrect"⟩, db)) ∧
    (u.must_reset_password = true →
      reset_password db body cu now =
        (Except.ok (row_to_user { u with
            password_hash := pwd_ctx_hash (PwInput.raw body.newPassword),
            must_reset_password := false, updated_at := now }),
          { db with users := set_user_password db.users body.userId (pwd_ctx_hash (PwInput.raw body.newPassword)) false now })) ∧
    (u.must_reset_password = false → body.currentPassword ≠ "" →
      pwd_ctx_verify (get_password_hash_input body.currentPassword) u.password_hash = true →
      reset_password db body cu now =
        (Except.ok (row_to_user { u with
            password_hash := pwd_ctx_hash (PwInput.raw body.newPassword),
            must_reset_password := false, updated_at := now }),
          { db with users := set_user_password db.users body.userId (pwd_ctx_hash (PwInput.raw body.newPassword)) false now })) := by
  refine ⟨?_, ?_, ?_⟩
  · intro hflag hbad
    simp [reset_password, hu, hflag, hbad]
  · intro hflag
    simp [reset_password, hu, hflag]
  · intro hflag hcur hver
    simp [reset_password, hu, hflag, hcur, hver]

/-- Witness for C5: the forced-reset user resets with an empty currentPassword
and succeeds, the flag being cleared and the new (raw-hashed) password being
stored. -/
theorem reset_password_spec_witness :
    reset_password temp_db ⟨3, "", "Fresh1!"⟩ admin_principal 7 =
      (Except.ok (row_to_user { temp_user with
          password_hash := pwd_ctx_hash (PwInput.raw "Fresh1!"),
          must_reset_password := false, updated_at := 7 }),
        { temp_db with users := set_user_password temp_db.users 3 (pwd_ctx_hash (PwInput.raw "Fresh1!")) false 7 }) :=
  (reset_password_spec temp_db ⟨3, "", "Fresh1!"⟩ admin_principal 7 temp_user
    (by decide)).2.1 rfl

/-- Counterexample for C6 as stated: the target user of tenant 2 carries the
empty password (which verifies against the stored hash); an ADMIN resets the
password to the empty string; afterwards must_reset_password is true but the
old (empty) password still verifies against the stored hash, because the
stored hash is now the bcrypt hash of the raw empty string — exactly what
login verification computes for the empty password. -/
theorem admin_reset_old_password_can_still_verify :
    verify_password "" empty_pw_user.password_hash = true ∧
    (admin_reset_password cross_tenant_db ⟨5, ""⟩ admin_principal 9).1 =
      Except.ok ⟨5, 2, "Eve", "e@x.com", "SALES", "active", "", 0, 9⟩ ∧
    (find_user_by_id (admin_reset_password cross_tenant_db ⟨5, ""⟩ admin_principal 9).2 5).map
        (fun u => (u.must_reset_password, verify_password "" u.password_hash)) =
      some (true, true) :=
  ⟨rfl, rfl, rfl⟩

/-- C6 as amended: a non-ADMIN principal gets 403 with the database untouched;
an ADMIN principal acting on an existing target forces
must_reset_password = true and stores the bcrypt hash of the raw new password,
against which no NONEMPTY old password verifies (an empty old password
together with an empty new password still verifies, see the
counterexample). -/
theorem admin_reset_password_spec (db : DB) (body : AdminResetBody) (cu : Principal)
    (now : Nat) :
    (cu.role ≠ "ADMIN" →
      admin_reset_password db body cu now =
        (Except.error ⟨403, "Admin role required"⟩, db)) ∧
    (∀ u, cu.role = "ADMIN" → find_user_by_id db body.userId = some u →
      admin_reset_password db body cu now =
        (Except.ok (row_to_user { u with
            password_hash := pwd_ctx_hash (PwInput.raw body.newPassword),
            must_reset_password := true, updated_at := now }),
          { db with users := set_user_password db.users body.userId (pwd_ctx_hash (PwInput.raw body.newPassword)) true now }) ∧
      (find_user_by_id (admin_reset_password db body cu now).2 body.userId).map
          (fun x => x.must_reset_password) = some true ∧
      (∀ p_old, p_old ≠ "" →
        verify_password p_old (pwd_ctx_hash (PwInput.raw body.newPassword)) = false)) := by
  refine ⟨?_, ?_⟩
  · intro hrole
    simp [admin_reset_password, hrole]
  · intro u hrole hu
    have hu2 : db.users.find? (fun x => x.id == body.userId) = some u := hu
    refine ⟨?_, ?_, ?_⟩
    · simp [admin_reset_password, hrole, hu]
    · simp [admin_reset_password, hrole, hu, find_user_by_id, find_set_user_password, hu2]
    · intro p_old hp
      simp [verify_password, pwd_ctx_verify, pwd_ctx_hash, get_password_hash_input, hp]

/-- Witness for C6: a non-ADMIN principal is refused with 403 and no change,
and no nonempty old password verifies against the raw-hashed "Temp9!". -/
theorem admin_reset_password_spec_witness :
    admin_reset_password cross_tenant_db ⟨5, "Temp9!"⟩ ⟨5, 2, "e@x.com", "SALES"⟩ 9 =
      (Except.error ⟨403, "Admin role required"⟩, cross_tenant_db) ∧
    verify_password "OldSecret" (pwd_ctx_hash (PwInput.raw "Temp9!")) = false :=
  ⟨(admin_reset_password_spec cross_tenant_db ⟨5, "Temp9!"⟩ ⟨5, 2, "e@x.com", "SALES"⟩ 9).1
      (by decide),
    ((admin_reset_password_spec cross_tenant_db ⟨5, "Temp9!"⟩ admin_principal 9).2
      empty_pw_user rfl (by decide)).2.2 "OldSecret" (by decide)⟩

/-- C9: forgot_password answers 204 for every input; an unknown email leaves
the database untouched (no token row); a known email appends a reset-token row
expiring one hour after now; and a raising SMTP send changes neither the
response nor the stored state. -/
theorem forgot_password_spec (db : DB) (body : ForgotPasswordBody) (token : String)
    (now : Nat) (smtp_fails : Bool) :
    (forgot_password db body token now smtp_fails).1 = 204 ∧
    (find_user_by_email db body.email = none →
      (forgot_password db body token now smtp_fails).2 = db) ∧
    (∀ u, find_user_by_email db body.email = some u →
      (forgot_password db body token now smtp_fails).2 =
        { db with password_reset_tokens :=
            db.password_reset_tokens ++ [⟨u.id, token, now + 60⟩] }) ∧
    forgot_password db body token now true = forgot_password db body token now false := by
  refine ⟨?_, ?_, ?_, ?_⟩
  · rcases hfind : find_user_by_email db body.email with _ | u <;>
      cases smtp_fails <;> simp [forgot_password, hfind]
  · intro h
    cases smtp_fails <;> simp [forgot_password, h]
  · intro u h
    cases smtp_fails <;> simp [forgot_password, h]
  · rcases hfind : find_user_by_email db body.email with _ | u <;>
      simp [forgot_password, hfind]

/-- Witness for C9: unknown email leaves the sample database unchanged; known
email appends the token row even though the SMTP send raises. -/
theorem forgot_password_spec_witness :
    (forgot_password sample_db ⟨"absent@x.com"⟩ "tok" 10 true).2 = sample_db ∧
    (forgot_password sample_db ⟨"a@x.com"⟩ "tok" 10 true).2 =
      { sample_db with password_reset_tokens :=
          sample_db.password_reset_tokens ++ [⟨sample_user.id, "tok", 10 + 60⟩] } :=
  ⟨(forgot_password_spec sample_db ⟨"absent@x.com"⟩ "tok" 10 true).2.1 (by decide),
    (forgot_password_spec sample_db ⟨"a@x.com"⟩ "tok" 10 true).2.2.1 sample_user (by decide)⟩

/-- C10: the admin reset flows perform no tenant-scoping check — for an ADMIN
principal and an existing target user of a DIFFERENT tenant, the reset goes
through: the response is the updated principal, the stored row carries the new
hash and must_reset_password = true, and the users-router variant behaves
identically to the auth-router one. -/
theorem admin_reset_password_no_tenant_scoping (db : DB) (body : AdminResetBody)
    (cu : Principal) (now : Nat) (u : UserRow)
    (hrole : cu.role = "ADMIN")
    (hu : find_user_by_id db body.userId = some u)
    (hten : u.tenant_id ≠ cu.tenant_id) :
    (admin_reset_password db body cu now).1 =
      Except.ok (row_to_user { u with
        password_hash := pwd_ctx_hash (PwInput.raw body.newPassword),
        must_reset_password := true, updated_at := now }) ∧
    find_user_by_id (admin_reset_password db body cu now).2 body.userId =
      some { u with password_hash := pwd_ctx_hash (PwInput.raw body.newPassword), must_reset_password := true, updated_at := now } ∧
    users_admin_reset_password db body.userId body.newPassword cu now =
      admin_reset_password db body cu now := by
  have hu2 : db.users.find? (fun x => x.id == body.userId) = some u := hu
  refine ⟨?_, ?_, ?_⟩
  · simp [admin_reset_password, hrole, hu]
  · simp [admin_reset_password, hrole, hu, find_user_by_id, find_set_user_password, hu2]
  · simp [users_admin_reset_password, admin_reset_password, hrole, hu]

/-- Witness for C10: the tenant-1 ADMIN resets the password of the tenant-2
user. -/
theorem admin_reset_password_no_tenant_scoping_witness :
    (admin_reset_password cross_tenant_db ⟨5, "Temp9!"⟩ admin_principal 9).1 =
      Except.ok (row_to_user { empty_pw_user with
        password_hash := pwd_ctx_hash (PwInput.raw "Temp9!"),
        must_reset_password := true, updated_at := 9 }) ∧
    find_user_by_id (admin_reset_password cross_tenant_db ⟨5, "Temp9!"⟩ admin_principal 9).2 5 =
      some { empty_pw_user with password_hash := pwd_ctx_hash (PwInput.raw "Temp9!"), must_reset_password := true, updated_at := 9 } ∧
    users_admin_reset_password cross_tenant_db 5 "Temp9!" admin_principal 9 =
      admin_reset_password cross_tenant_db ⟨5, "Temp9!"⟩ admin_principal 9 :=
  admin_reset_password_no_tenant_scoping cross_tenant_db ⟨5, "Temp9!"⟩ admin_principal 9
    empty_pw_user rfl (by decide) (by decide)

end CRM
